import Mathlib

/-!
Shallow embedding of the pose-shadowing and calibration core of the
opengloves driver (src/ControllerPose.cpp), together with the data model it
operates on.  Scalars are modelled as exact rationals.  The math helpers of
Quaternion.h, the Calibration class and the controller-discovery pipe are
not part of the available sources; they are modelled from the spec, each
marked as such in its doc comment.  The host's raw-pose snapshot is modelled
as a list of tracked-device poses; an out-of-bounds read of the snapshot
array (undefined behaviour in the C++) is modelled as the result none.
-/

/-- Three-component vector (vr::HmdVector3_t, the v[3] array). -/
structure HmdVector3 where
  v0 : Rat
  v1 : Rat
  v2 : Rat
deriving DecidableEq, Repr

/-- Quaternion in w, x, y, z order (vr::HmdQuaternion_t). -/
structure HmdQuaternion where
  w : Rat
  x : Rat
  y : Rat
  z : Rat
deriving DecidableEq, Repr

/-- Row-major 3x4 pose matrix: rotation in columns 0..2, translation in
column 3 (vr::HmdMatrix34_t). -/
structure HmdMatrix34 where
  m00 : Rat
  m01 : Rat
  m02 : Rat
  m03 : Rat
  m10 : Rat
  m11 : Rat
  m12 : Rat
  m13 : Rat
  m20 : Rat
  m21 : Rat
  m22 : Rat
  m23 : Rat
deriving DecidableEq, Repr

/-- Row-major 3x3 rotation matrix (vr::HmdMatrix33_t). -/
structure HmdMatrix33 where
  m00 : Rat
  m01 : Rat
  m02 : Rat
  m10 : Rat
  m11 : Rat
  m12 : Rat
  m20 : Rat
  m21 : Rat
  m22 : Rat
deriving DecidableEq, Repr

/-- Tracking result values used by the core (vr::ETrackingResult).  Only the
two values the code assigns are modelled. -/
inductive ETrackingResult where
  | Uninitialized
  | Running_OK
deriving DecidableEq, Repr

/-- Controller roles (vr::ETrackedControllerRole), restricted to the values
the driver distinguishes. -/
inductive ETrackedControllerRole where
  | Invalid
  | LeftHand
  | RightHand
deriving DecidableEq, Repr

/-- Raw per-device pose supplied by the host runtime
(vr::TrackedDevicePose_t): a 3x4 pose matrix, a validity flag and the two
velocity vectors; only the fields the core reads are modelled. -/
structure TrackedDevicePose where
  mDeviceToAbsoluteTracking : HmdMatrix34
  vVelocity : HmdVector3
  vAngularVelocity : HmdVector3
  bPoseIsValid : Bool
deriving DecidableEq, Repr

/-- Output pose reported to the host (vr::DriverPose_t); the fields the core
writes or that its zero-initialisation makes observable. -/
structure DriverPose where
  qWorldFromDriverRotation : HmdQuaternion
  qDriverFromHeadRotation : HmdQuaternion
  vecPosition : HmdVector3
  vecVelocity : HmdVector3
  vecAngularVelocity : HmdVector3
  qRotation : HmdQuaternion
  result : ETrackingResult
  poseIsValid : Bool
  deviceIsConnected : Bool
  poseTimeOffset : Rat
deriving DecidableEq, Repr

/-- Pose configuration (VRPoseConfiguration_t as constructed in
DeviceProvider.cpp): offset vector, offset quaternion, pose time offset,
override flag and override index (an int, -1 when no override is read). -/
structure VRPoseConfiguration where
  offsetVector : HmdVector3
  angleOffsetQuaternion : HmdQuaternion
  poseOffset : Rat
  controllerOverrideEnabled : Bool
  controllerIdOverride : Int
deriving DecidableEq, Repr

/-- vr::k_unTrackedDeviceIndexInvalid, the invalid sentinel 0xFFFFFFFF. -/
def k_unTrackedDeviceIndexInvalid : Nat := 4294967295

/-- vr::k_unMaxTrackedDeviceCount, the size of the host pose snapshot. -/
def k_unMaxTrackedDeviceCount : Nat := 64

/-- Conversion of a C int value to the uint32_t device-index type, as
performed by the assignment of controllerIdOverride to m_shadowControllerId. -/
def intToUInt32 (i : Int) : Nat := (i % 4294967296).toNat

/-- Modelled from the spec: Quaternion.h GetRotationMatrix (missing from the
available sources): extract the rotation submatrix from a pose matrix,
dropping the translation column. -/
def GetRotationMatrix (m : HmdMatrix34) : HmdMatrix33 :=
  ⟨m.m00, m.m01, m.m02, m.m10, m.m11, m.m12, m.m20, m.m21, m.m22⟩

/-- Modelled from the spec: Quaternion.h MultiplyMatrix (missing from the
available sources): rotate a 3D vector by a rotation matrix, the standard
matrix-vector product. -/
def MultiplyMatrix (m : HmdMatrix33) (v : HmdVector3) : HmdVector3 :=
  ⟨m.m00 * v.v0 + m.m01 * v.v1 + m.m02 * v.v2,
   m.m10 * v.v0 + m.m11 * v.v1 + m.m12 * v.v2,
   m.m20 * v.v0 + m.m21 * v.v1 + m.m22 * v.v2⟩

/-- Modelled from the spec: Quaternion.h CombinePosition (missing from the
available sources): add a world-space offset vector to the pose matrix's
translation column to produce the new position. -/
def CombinePosition (m : HmdMatrix34) (v : HmdVector3) : HmdVector3 :=
  ⟨m.m03 + v.v0, m.m13 + v.v1, m.m23 + v.v2⟩

/-- Modelled from the spec: Quaternion.h MultiplyQuaternion (missing from
the available sources): the Hamilton product q * r, composing a base
orientation q with a local offset r. -/
def MultiplyQuaternion (q r : HmdQuaternion) : HmdQuaternion :=
  ⟨q.w * r.w - q.x * r.x - q.y * r.y - q.z * r.z,
   q.w * r.x + q.x * r.w + q.y * r.z - q.z * r.y,
   q.w * r.y - q.x * r.z + q.y * r.w + q.z * r.x,
   q.w * r.z + q.x * r.y - q.y * r.x + q.z * r.w⟩

/-- Modelled from the spec: the Calibration class (missing from the
available sources).  States Idle and Calibrating are the flag; while open
the session holds the frozen maintain pose. -/
structure Calibration where
  calibrating : Bool
  maintainPose : DriverPose
deriving DecidableEq, Repr

/-- Modelled from the spec: initial calibration state is Idle. -/
def Calibration.init : Calibration :=
  { calibrating := false,
    maintainPose :=
      { qWorldFromDriverRotation := ⟨0, 0, 0, 0⟩,
        qDriverFromHeadRotation := ⟨0, 0, 0, 0⟩,
        vecPosition := ⟨0, 0, 0⟩,
        vecVelocity := ⟨0, 0, 0⟩,
        vecAngularVelocity := ⟨0, 0, 0⟩,
        qRotation := ⟨0, 0, 0, 0⟩,
        result := ETrackingResult.Uninitialized,
        poseIsValid := false,
        deviceIsConnected := false,
        poseTimeOffset := 0 } }

/-- Modelled from the spec: Calibration::StartCalibration stores the given
pose as the session's frozen maintain pose and moves to Calibrating. -/
def Calibration.StartCalibration (c : Calibration) (pose : DriverPose) :
    Calibration :=
  { c with calibrating := true, maintainPose := pose }

/-- Modelled from the spec: Calibration::GetMaintainPose returns the frozen
maintain pose verbatim. -/
def Calibration.GetMaintainPose (c : Calibration) : DriverPose :=
  c.maintainPose

/-- Modelled from the spec: Calibration::CancelCalibration discards the
session; state returns to Idle. -/
def Calibration.CancelCalibration (c : Calibration) : Calibration :=
  { c with calibrating := false }

/-- Modelled from the spec: Calibration::FinishCalibration takes the real
controller's current raw pose, the existing configuration and the
handedness flag, produces a new configuration through the derivation step
(whose exact geometry the spec leaves open, so it is a parameter here) and
returns to Idle. -/
def Calibration.FinishCalibration
    (derive : TrackedDevicePose → VRPoseConfiguration → Bool →
      VRPoseConfiguration)
    (c : Calibration) (raw : TrackedDevicePose) (cfg : VRPoseConfiguration)
    (rightHand : Bool) : VRPoseConfiguration × Calibration :=
  (derive raw cfg rightHand, { c with calibrating := false })

/-- State of a ControllerPose instance: the construction-time role, the
stored configuration, the resolved shadow index, whether a discovery pipe
was started, and the calibration state machine. -/
structure ControllerPoseState where
  shadowDeviceOfRole : ETrackedControllerRole
  poseConfiguration : VRPoseConfiguration
  shadowControllerId : Nat
  discoveryActive : Bool
  calibration : Calibration
deriving DecidableEq, Repr

namespace ControllerPose

/-- ControllerPose::ControllerPose: with the override enabled the shadow
index is set to the configured override and no discovery pipe is started;
otherwise the index stays at the invalid sentinel (modelled from the spec:
the member initialiser lives in the missing header) and a discovery pipe is
started whose callback overwrites the index. -/
def construct (role : ETrackedControllerRole) (cfg : VRPoseConfiguration) :
    ControllerPoseState :=
  if cfg.controllerOverrideEnabled then
    { shadowDeviceOfRole := role, poseConfiguration := cfg,
      shadowControllerId := intToUInt32 cfg.controllerIdOverride,
      discoveryActive := false, calibration := Calibration.init }
  else
    { shadowDeviceOfRole := role, poseConfiguration := cfg,
      shadowControllerId := k_unTrackedDeviceIndexInvalid,
      discoveryActive := true, calibration := Calibration.init }

/-- Modelled from the spec: delivery of one discovery report
(ControllerPipeData) to the callback registered at construction.  The
callback exists only when a pipe was started; it overwrites the resolved
index with the reported one (last-write-wins). -/
def receivePipeData (s : ControllerPoseState) (controllerId : Nat) :
    ControllerPoseState :=
  if s.discoveryActive then { s with shadowControllerId := controllerId }
  else s

/-- ControllerPose::GetControllerPose: index the host's fixed-size raw-pose
snapshot by the resolved shadow index.  The C++ performs no bounds check on
the stack array of size k_unMaxTrackedDeviceCount; an out-of-bounds read is
undefined behaviour and is modelled as none. -/
def GetControllerPose (poses : List TrackedDevicePose)
    (s : ControllerPoseState) : Option TrackedDevicePose :=
  poses[s.shadowControllerId]?

/-- The zero-initialised DriverPose with the two frame rotations set to the
identity quaternion, as built at the top of ControllerPose::UpdatePose.
The C++ zero-initialisation leaves the result field holding the value 0;
every return path overwrites result before returning, so representing the
initial value as Uninitialized is unobservable. -/
def basePose : DriverPose :=
  { qWorldFromDriverRotation := ⟨1, 0, 0, 0⟩,
    qDriverFromHeadRotation := ⟨1, 0, 0, 0⟩,
    vecPosition := ⟨0, 0, 0⟩,
    vecVelocity := ⟨0, 0, 0⟩,
    vecAngularVelocity := ⟨0, 0, 0⟩,
    qRotation := ⟨0, 0, 0, 0⟩,
    result := ETrackingResult.Uninitialized,
    poseIsValid := false,
    deviceIsConnected := false,
    poseTimeOffset := 0 }

/-- ControllerPose::UpdatePose.  The matrix-to-quaternion conversion
GetRotation of Quaternion.h is missing from the available sources and is
not described by the spec, so it is a parameter gr.  The result pairs the
returned pose with the (unchanged) object state, mirroring that the method
assigns no member; none models the undefined behaviour of an out-of-bounds
snapshot read inside GetControllerPose. -/
def UpdatePose (gr : HmdMatrix34 → HmdQuaternion)
    (poses : List TrackedDevicePose) (s : ControllerPoseState) :
    Option (DriverPose × ControllerPoseState) :=
  if s.calibration.calibrating then
    some (Calibration.GetMaintainPose s.calibration, s)
  else if s.shadowControllerId ≠ k_unTrackedDeviceIndexInvalid then
    match GetControllerPose poses s with
    | none => none
    | some controllerPose =>
      if controllerPose.bPoseIsValid then
        let controllerMatrix := controllerPose.mDeviceToAbsoluteTracking
        let controllerRotationMatrix := GetRotationMatrix controllerMatrix
        let vectorOffset :=
          MultiplyMatrix controllerRotationMatrix
            s.poseConfiguration.offsetVector
        let newControllerPosition :=
          CombinePosition controllerMatrix vectorOffset
        some ({ basePose with
                vecPosition := newControllerPosition,
                qRotation :=
                  MultiplyQuaternion (gr controllerMatrix)
                    s.poseConfiguration.angleOffsetQuaternion,
                vecAngularVelocity := controllerPose.vAngularVelocity,
                vecVelocity := controllerPose.vVelocity,
                poseIsValid := true,
                deviceIsConnected := true,
                result := ETrackingResult.Running_OK,
                poseTimeOffset := s.poseConfiguration.poseOffset }, s)
      else
        some ({ basePose with
                poseIsValid := false,
                deviceIsConnected := true,
                result := ETrackingResult.Uninitialized }, s)
  else
    some ({ basePose with
            result := ETrackingResult.Uninitialized,
            deviceIsConnected := false }, s)

/-- ControllerPose::StartCalibration: capture the current output pose via
the full UpdatePose path and freeze it as the maintain pose. -/
def StartCalibration (gr : HmdMatrix34 → HmdQuaternion)
    (poses : List TrackedDevicePose) (s : ControllerPoseState) :
    Option ControllerPoseState :=
  (UpdatePose gr poses s).map fun pr =>
    { pr.2 with calibration := Calibration.StartCalibration pr.2.calibration pr.1 }

/-- ControllerPose::isRightHand. -/
def isRightHand (s : ControllerPoseState) : Bool :=
  s.shadowDeviceOfRole = ETrackedControllerRole.RightHand

/-- ControllerPose::CancelCalibration. -/
def CancelCalibration (s : ControllerPoseState) : ControllerPoseState :=
  { s with calibration := Calibration.CancelCalibration s.calibration }

/-- ControllerPose::FinishCalibration: with the shadow index at the invalid
sentinel this degrades to CancelCalibration; otherwise the current raw pose
is fetched and the stored configuration is replaced, as a whole, by the
derivation's result. -/
def FinishCalibration
    (derive : TrackedDevicePose → VRPoseConfiguration → Bool →
      VRPoseConfiguration)
    (poses : List TrackedDevicePose) (s : ControllerPoseState) :
    Option ControllerPoseState :=
  if s.shadowControllerId = k_unTrackedDeviceIndexInvalid then
    some (CancelCalibration s)
  else
    match GetControllerPose poses s with
    | none => none
    | some raw =>
      let res :=
        Calibration.FinishCalibration derive s.calibration raw
          s.poseConfiguration (isRightHand s)
      some { s with poseConfiguration := res.1, calibration := res.2 }

/-- ControllerPose::isCalibrating. -/
def isCalibrating (s : ControllerPoseState) : Bool :=
  s.calibration.calibrating

end ControllerPose

/-! Concrete sample data used by the witness theorems. -/

/-- A stand-in for the matrix-to-quaternion conversion, used only to
instantiate witnesses. -/
def sampleRotationFn : HmdMatrix34 → HmdQuaternion := fun _ => ⟨1, 0, 0, 0⟩

/-- Configuration with offset vector (0.05, 0, 0), identity offset
quaternion and no override. -/
def sampleCfg : VRPoseConfiguration :=
  ⟨⟨1/20, 0, 0⟩, ⟨1, 0, 0, 0⟩, 0, false, -1⟩

/-- Identity-rotation pose matrix with translation (1, 2, 3). -/
def sampleMatrix : HmdMatrix34 :=
  ⟨1, 0, 0, 1, 0, 1, 0, 2, 0, 0, 1, 3⟩

/-- A valid raw pose at sampleMatrix with zero velocities. -/
def samplePoseValid : TrackedDevicePose :=
  ⟨sampleMatrix, ⟨0, 0, 0⟩, ⟨0, 0, 0⟩, true⟩

/-- The same raw pose with the validity flag cleared. -/
def samplePoseInvalid : TrackedDevicePose :=
  ⟨sampleMatrix, ⟨0, 0, 0⟩, ⟨0, 0, 0⟩, false⟩

/-- A state whose shadow index is resolved to device 0, outside
calibration. -/
def sampleStateResolved : ControllerPoseState :=
  ⟨ETrackedControllerRole.RightHand, sampleCfg, 0, true, Calibration.init⟩

/-- A state whose shadow index is still the invalid sentinel, outside
calibration. -/
def sampleStateUnresolved : ControllerPoseState :=
  ⟨ETrackedControllerRole.LeftHand, sampleCfg, k_unTrackedDeviceIndexInvalid,
    true, Calibration.init⟩

/-- The output pose UpdatePose produces from samplePoseValid under
sampleCfg: position (1.05, 2, 3), identity orientation. -/
def sampleOutPose : DriverPose :=
  { ControllerPose.basePose with
    vecPosition := ⟨21/20, 2, 3⟩,
    qRotation := ⟨1, 0, 0, 0⟩,
    poseIsValid := true,
    deviceIsConnected := true,
    result := ETrackingResult.Running_OK,
    poseTimeOffset := 0 }

/-- The pose returned while the shadow identity is unresolved: everything at
its zero default except the two identity frame rotations, disconnected and
uninitialized. -/
def uninitializedPose : DriverPose :=
  { qWorldFromDriverRotation := ⟨1, 0, 0, 0⟩,
    qDriverFromHeadRotation := ⟨1, 0, 0, 0⟩,
    vecPosition := ⟨0, 0, 0⟩,
    vecVelocity := ⟨0, 0, 0⟩,
    vecAngularVelocity := ⟨0, 0, 0⟩,
    qRotation := ⟨0, 0, 0, 0⟩,
    result := ETrackingResult.Uninitialized,
    poseIsValid := false,
    deviceIsConnected := false,
    poseTimeOffset := 0 }

/-! Helper lemmas shared by the claim theorems. -/

/-- UpdatePose never mutates the object state: whenever it returns a pose,
the paired state is the input state. -/
theorem updatePose_preserves_state (gr : HmdMatrix34 → HmdQuaternion)
    (poses : List TrackedDevicePose) (s : ControllerPoseState)
    (p : DriverPose) (t : ControllerPoseState)
    (h : ControllerPose.UpdatePose gr poses s = some (p, t)) : t = s := by
  unfold ControllerPose.UpdatePose at h
  split at h
  · simp only [Option.some.injEq, Prod.mk.injEq] at h
    exact h.2.symm
  · split at h
    · split at h
      · exact absurd h (by simp)
      · split at h
        · simp only [Option.some.injEq, Prod.mk.injEq] at h
          exact h.2.symm
        · simp only [Option.some.injEq, Prod.mk.injEq] at h
          exact h.2.symm
    · simp only [Option.some.injEq, Prod.mk.injEq] at h
      exact h.2.symm

/-- C1: outside calibration, with the shadow identity resolved and the
fetched raw pose valid, UpdatePose returns a pose whose position is the
controller's translation plus the configured offset vector rotated by the
controller's rotation matrix, whose orientation is the Hamilton product of
the controller rotation with the configured offset quaternion (base first,
local offset second), whose velocities are copied unmodified, with
poseIsValid true, deviceIsConnected true, result Running_OK and
poseTimeOffset taken from the configuration. -/
theorem C1_valid_pose_transform (gr : HmdMatrix34 → HmdQuaternion)
    (poses : List TrackedDevicePose) (s : ControllerPoseState)
    (cp : TrackedDevicePose)
    (hcal : s.calibration.calibrating = false)
    (hid : s.shadowControllerId ≠ k_unTrackedDeviceIndexInvalid)
    (hfetch : ControllerPose.GetControllerPose poses s = some cp)
    (hvalid : cp.bPoseIsValid = true) :
    ∃ p, ControllerPose.UpdatePose gr poses s = some (p, s) ∧
      p.vecPosition =
        ⟨cp.mDeviceToAbsoluteTracking.m03 +
            (MultiplyMatrix (GetRotationMatrix cp.mDeviceToAbsoluteTracking)
              s.poseConfiguration.offsetVector).v0,
          cp.mDeviceToAbsoluteTracking.m13 +
            (MultiplyMatrix (GetRotationMatrix cp.mDeviceToAbsoluteTracking)
              s.poseConfiguration.offsetVector).v1,
          cp.mDeviceToAbsoluteTracking.m23 +
            (MultiplyMatrix (GetRotationMatrix cp.mDeviceToAbsoluteTracking)
              s.poseConfiguration.offsetVector).v2⟩ ∧
      p.qRotation =
        MultiplyQuaternion (gr cp.mDeviceToAbsoluteTracking)
          s.poseConfiguration.angleOffsetQuaternion ∧
      p.vecAngularVelocity = cp.vAngularVelocity ∧
      p.vecVelocity = cp.vVelocity ∧
      p.poseIsValid = true ∧
      p.deviceIsConnected = true ∧
      p.result = ETrackingResult.Running_OK ∧
      p.poseTimeOffset = s.poseConfiguration.poseOffset := by
  refine ⟨{ ControllerPose.basePose with
            vecPosition :=
              CombinePosition cp.mDeviceToAbsoluteTracking
                (MultiplyMatrix
                  (GetRotationMatrix cp.mDeviceToAbsoluteTracking)
                  s.poseConfiguration.offsetVector),
            qRotation :=
              MultiplyQuaternion (gr cp.mDeviceToAbsoluteTracking)
                s.poseConfiguration.angleOffsetQuaternion,
            vecAngularVelocity := cp.vAngularVelocity,
            vecVelocity := cp.vVelocity,
            poseIsValid := true,
            deviceIsConnected := true,
            result := ETrackingResult.Running_OK,
            poseTimeOffset := s.poseConfiguration.poseOffset },
          ?_, rfl, rfl, rfl, rfl, rfl, rfl, rfl, rfl⟩
  simp [ControllerPose.UpdatePose, hcal, hid, hfetch, hvalid]

/-- Witness for C1 at Scenario B: offset (0.05, 0, 0), controller at
identity orientation at (1, 2, 3). -/
theorem C1_valid_pose_transform_witness :
    ∃ p, ControllerPose.UpdatePose sampleRotationFn [samplePoseValid]
        sampleStateResolved = some (p, sampleStateResolved) ∧
      p.vecPosition =
        ⟨samplePoseValid.mDeviceToAbsoluteTracking.m03 +
            (MultiplyMatrix
              (GetRotationMatrix samplePoseValid.mDeviceToAbsoluteTracking)
              sampleStateResolved.poseConfiguration.offsetVector).v0,
          samplePoseValid.mDeviceToAbsoluteTracking.m13 +
            (MultiplyMatrix
              (GetRotationMatrix samplePoseValid.mDeviceToAbsoluteTracking)
              sampleStateResolved.poseConfiguration.offsetVector).v1,
          samplePoseValid.mDeviceToAbsoluteTracking.m23 +
            (MultiplyMatrix
              (GetRotationMatrix samplePoseValid.mDeviceToAbsoluteTracking)
              sampleStateResolved.poseConfiguration.offsetVector).v2⟩ ∧
      p.qRotation =
        MultiplyQuaternion
          (sampleRotationFn samplePoseValid.mDeviceToAbsoluteTracking)
          sampleStateResolved.poseConfiguration.angleOffsetQuaternion ∧
      p.vecAngularVelocity = samplePoseValid.vAngularVelocity ∧
      p.vecVelocity = samplePoseValid.vVelocity ∧
      p.poseIsValid = true ∧
      p.deviceIsConnected = true ∧
      p.result = ETrackingResult.Running_OK ∧
      p.poseTimeOffset = sampleStateResolved.poseConfiguration.poseOffset :=
  C1_valid_pose_transform sampleRotationFn [samplePoseValid]
    sampleStateResolved samplePoseValid rfl (by decide) rfl rfl

/-- C2: after StartCalibration captures the pose p, every UpdatePose call
made while Calibrating returns exactly p, whatever happens to the raw
poses, the matrix-to-quaternion conversion, the configuration or the
resolved identity in the meantime. -/
theorem C2_calibrating_freezes_pose (gr gr2 : HmdMatrix34 → HmdQuaternion)
    (poses poses2 : List TrackedDevicePose) (s s2 : ControllerPoseState)
    (p : DriverPose)
    (hcap : ControllerPose.UpdatePose gr poses s = some (p, s))
    (hstart : ControllerPose.StartCalibration gr poses s = some s2)
    (cfg2 : VRPoseConfiguration) (id2 : Nat) :
    ControllerPose.UpdatePose gr2 poses2
        { s2 with poseConfiguration := cfg2, shadowControllerId := id2 } =
      some (p,
        { s2 with poseConfiguration := cfg2, shadowControllerId := id2 }) := by
  rw [ControllerPose.StartCalibration, hcap] at hstart
  have hs2 := Option.some.inj hstart
  subst hs2
  simp [ControllerPose.UpdatePose, Calibration.StartCalibration,
    Calibration.GetMaintainPose]

/-- A state frozen in a calibration session that maintains the
disconnected pose, as produced by StartCalibration on
sampleStateUnresolved. -/
def sampleCalibratingState : ControllerPoseState :=
  { sampleStateUnresolved with
    calibration := { calibrating := true, maintainPose := uninitializedPose } }

/-- Witness for C2: the frozen pose survives a change of snapshot,
conversion, configuration and resolved index. -/
theorem C2_calibrating_freezes_pose_witness :
    ControllerPose.UpdatePose (fun _ => ⟨0, 1, 0, 0⟩) [samplePoseValid]
        { sampleCalibratingState with
          poseConfiguration := sampleCfg, shadowControllerId := 0 } =
      some (uninitializedPose,
        { sampleCalibratingState with
          poseConfiguration := sampleCfg, shadowControllerId := 0 }) :=
  C2_calibrating_freezes_pose sampleRotationFn (fun _ => ⟨0, 1, 0, 0⟩) []
    [samplePoseValid] sampleStateUnresolved sampleCalibratingState
    uninitializedPose rfl rfl sampleCfg 0

/-- A derivation stand-in used to instantiate witnesses: reads the raw
translation, the prior configuration and the handedness flag. -/
def sampleDerive :
    TrackedDevicePose → VRPoseConfiguration → Bool → VRPoseConfiguration :=
  fun raw cfg rh =>
    ⟨⟨raw.mDeviceToAbsoluteTracking.m03, raw.mDeviceToAbsoluteTracking.m13,
        raw.mDeviceToAbsoluteTracking.m23⟩,
      cfg.angleOffsetQuaternion, cfg.poseOffset, rh, cfg.controllerIdOverride⟩

/-- C4: FinishCalibration with the shadow index at the invalid sentinel is
exactly CancelCalibration: the session returns to Idle and the stored
configuration is unchanged. -/
theorem C4_finish_without_identity_cancels
    (derive : TrackedDevicePose → VRPoseConfiguration → Bool →
      VRPoseConfiguration)
    (poses : List TrackedDevicePose) (s : ControllerPoseState)
    (hid : s.shadowControllerId = k_unTrackedDeviceIndexInvalid) :
    ControllerPose.FinishCalibration derive poses s =
        some (ControllerPose.CancelCalibration s) ∧
      (ControllerPose.CancelCalibration s).poseConfiguration =
        s.poseConfiguration ∧
      (ControllerPose.CancelCalibration s).calibration.calibrating = false := by
  refine ⟨?_, rfl, rfl⟩
  simp [ControllerPose.FinishCalibration, hid]

/-- Witness for C4 at a concrete calibrating state with an unresolved
identity. -/
theorem C4_finish_without_identity_cancels_witness :
    ControllerPose.FinishCalibration sampleDerive [samplePoseValid]
        sampleCalibratingState =
        some (ControllerPose.CancelCalibration sampleCalibratingState) ∧
      (ControllerPose.CancelCalibration
          sampleCalibratingState).poseConfiguration =
        sampleCalibratingState.poseConfiguration ∧
      (ControllerPose.CancelCalibration
          sampleCalibratingState).calibration.calibrating = false :=
  C4_finish_without_identity_cancels sampleDerive [samplePoseValid]
    sampleCalibratingState rfl

/-- C5: FinishCalibration with a resolved shadow index replaces the stored
configuration, as one whole value, by the derivation applied to the fetched
raw pose, the prior configuration and the handedness flag, which is true
exactly when the construction-time role is the right hand. -/
theorem C5_finish_with_identity_replaces_config
    (derive : TrackedDevicePose → VRPoseConfiguration → Bool →
      VRPoseConfiguration)
    (poses : List TrackedDevicePose) (s : ControllerPoseState)
    (raw : TrackedDevicePose)
    (hid : s.shadowControllerId ≠ k_unTrackedDeviceIndexInvalid)
    (hfetch : ControllerPose.GetControllerPose poses s = some raw) :
    ControllerPose.FinishCalibration derive poses s =
        some { s with
          poseConfiguration :=
            derive raw s.poseConfiguration (ControllerPose.isRightHand s),
          calibration := Calibration.CancelCalibration s.calibration } ∧
      (ControllerPose.isRightHand s = true ↔
        s.shadowDeviceOfRole = ETrackedControllerRole.RightHand) := by
  constructor
  · simp [ControllerPose.FinishCalibration, hid, hfetch,
      Calibration.FinishCalibration, Calibration.CancelCalibration]
  · simp [ControllerPose.isRightHand]

/-- A calibrating state whose shadow index is resolved to device 0. -/
def sampleCalibratingResolved : ControllerPoseState :=
  { sampleStateResolved with
    calibration := { calibrating := true, maintainPose := uninitializedPose } }

/-- Witness for C5 at a concrete calibrating state resolved to device 0. -/
theorem C5_finish_with_identity_replaces_config_witness :
    ControllerPose.FinishCalibration sampleDerive [samplePoseValid]
        sampleCalibratingResolved =
        some { sampleCalibratingResolved with
          poseConfiguration :=
            sampleDerive samplePoseValid
              sampleCalibratingResolved.poseConfiguration
              (ControllerPose.isRightHand sampleCalibratingResolved),
          calibration :=
            Calibration.CancelCalibration
              sampleCalibratingResolved.calibration } ∧
      (ControllerPose.isRightHand sampleCalibratingResolved = true ↔
        sampleCalibratingResolved.shadowDeviceOfRole =
          ETrackedControllerRole.RightHand) :=
  C5_finish_with_identity_replaces_config sampleDerive [samplePoseValid]
    sampleCalibratingResolved samplePoseValid (by decide) rfl

/-- Outside calibration with a resolved index whose snapshot read is out of
bounds, UpdatePose has no defined result.  Shared helper. -/
theorem updatePose_oob_eq (gr : HmdMatrix34 → HmdQuaternion)
    (poses : List TrackedDevicePose) (s : ControllerPoseState)
    (hcal : s.calibration.calibrating = false)
    (hid : s.shadowControllerId ≠ k_unTrackedDeviceIndexInvalid)
    (hoob : ControllerPose.GetControllerPose poses s = none) :
    ControllerPose.UpdatePose gr poses s = none := by
  simp [ControllerPose.UpdatePose, hcal, hid, hoob]

/-- Outside calibration, an unresolved shadow identity yields the
disconnected pose.  Shared helper. -/
theorem updatePose_unresolved_eq (gr : HmdMatrix34 → HmdQuaternion)
    (poses : List TrackedDevicePose) (s : ControllerPoseState)
    (hcal : s.calibration.calibrating = false)
    (hid : s.shadowControllerId = k_unTrackedDeviceIndexInvalid) :
    ControllerPose.UpdatePose gr poses s = some (uninitializedPose, s) := by
  simp [ControllerPose.UpdatePose, hcal, hid, ControllerPose.basePose,
    uninitializedPose]

/-- C6: outside calibration with the shadow index at the invalid sentinel,
UpdatePose returns the disconnected pose: deviceIsConnected false, result
Uninitialized, poseIsValid false, identity frame rotations and every other
field at its zero default. -/
theorem C6_unresolved_identity_disconnected (gr : HmdMatrix34 → HmdQuaternion)
    (poses : List TrackedDevicePose) (s : ControllerPoseState)
    (hcal : s.calibration.calibrating = false)
    (hid : s.shadowControllerId = k_unTrackedDeviceIndexInvalid) :
    ControllerPose.UpdatePose gr poses s = some (uninitializedPose, s) :=
  updatePose_unresolved_eq gr poses s hcal hid

/-- Witness for C6 at a concrete unresolved state. -/
theorem C6_unresolved_identity_disconnected_witness :
    ControllerPose.UpdatePose sampleRotationFn [samplePoseValid]
      sampleStateUnresolved = some (uninitializedPose, sampleStateUnresolved) :=
  C6_unresolved_identity_disconnected sampleRotationFn [samplePoseValid]
    sampleStateUnresolved rfl rfl

/-- C7: outside calibration with a resolved shadow index whose fetched raw
pose has its validity flag false, UpdatePose reports deviceIsConnected true,
poseIsValid false, result Uninitialized. -/
theorem C7_untracked_but_identified (gr : HmdMatrix34 → HmdQuaternion)
    (poses : List TrackedDevicePose) (s : ControllerPoseState)
    (cp : TrackedDevicePose)
    (hcal : s.calibration.calibrating = false)
    (hid : s.shadowControllerId ≠ k_unTrackedDeviceIndexInvalid)
    (hfetch : ControllerPose.GetControllerPose poses s = some cp)
    (hinv : cp.bPoseIsValid = false) :
    ∃ p, ControllerPose.UpdatePose gr poses s = some (p, s) ∧
      p.deviceIsConnected = true ∧ p.poseIsValid = false ∧
      p.result = ETrackingResult.Uninitialized := by
  refine ⟨{ ControllerPose.basePose with
            poseIsValid := false, deviceIsConnected := true,
            result := ETrackingResult.Uninitialized }, ?_, rfl, rfl, rfl⟩
  simp [ControllerPose.UpdatePose, hcal, hid, hfetch, hinv]

/-- Witness for C7 at a concrete resolved state with an invalid raw pose. -/
theorem C7_untracked_but_identified_witness :
    ∃ p, ControllerPose.UpdatePose sampleRotationFn [samplePoseInvalid]
        sampleStateResolved = some (p, sampleStateResolved) ∧
      p.deviceIsConnected = true ∧ p.poseIsValid = false ∧
      p.result = ETrackingResult.Uninitialized :=
  C7_untracked_but_identified sampleRotationFn [samplePoseInvalid]
    sampleStateResolved samplePoseInvalid rfl (by decide) rfl rfl

/-- C8: outside calibration UpdatePose is a deterministic function of the
raw pose snapshot, the resolved index and the configuration with no hidden
mutation: the state comes back unchanged and a second call returns the
identical pose. -/
theorem C8_updatePose_deterministic (gr : HmdMatrix34 → HmdQuaternion)
    (poses : List TrackedDevicePose) (s : ControllerPoseState)
    (p1 : DriverPose) (s1 : ControllerPoseState)
    (hcal : s.calibration.calibrating = false)
    (h1 : ControllerPose.UpdatePose gr poses s = some (p1, s1)) :
    s1 = s ∧ ControllerPose.UpdatePose gr poses s1 = some (p1, s1) := by
  have hs := updatePose_preserves_state gr poses s p1 s1 h1
  subst hs
  exact ⟨rfl, h1⟩

/-- Witness for C8 at a concrete resolved state with a valid raw pose. -/
theorem C8_updatePose_deterministic_witness :
    sampleStateResolved = sampleStateResolved ∧
    ControllerPose.UpdatePose sampleRotationFn [samplePoseValid]
      sampleStateResolved = some (sampleOutPose, sampleStateResolved) :=
  C8_updatePose_deterministic sampleRotationFn [samplePoseValid]
    sampleStateResolved sampleOutPose sampleStateResolved rfl (by
      simp [ControllerPose.UpdatePose, ControllerPose.GetControllerPose,
        sampleStateResolved, sampleCfg, samplePoseValid, sampleMatrix,
        sampleRotationFn, sampleOutPose, GetRotationMatrix, MultiplyMatrix,
        CombinePosition, MultiplyQuaternion, ControllerPose.basePose,
        Calibration.init, k_unTrackedDeviceIndexInvalid]
      norm_num)

/-- Configuration with the static override enabled, pointing at device 5. -/
def sampleCfgOverride : VRPoseConfiguration :=
  ⟨⟨0, 0, 0⟩, ⟨1, 0, 0, 0⟩, 0, true, 5⟩

/-- C3: with the override enabled, construction resolves the shadow index
to the configured override immediately, starts no discovery, and discovery
reports never change it; with the override disabled, the index starts at
the invalid sentinel, each discovery report overwrites it last-write-wins,
and after a report of index 3 the raw-pose fetch reads the snapshot entry
of device index 3. -/
theorem C3_identity_resolution :
    (∀ (role : ETrackedControllerRole) (cfg : VRPoseConfiguration),
      cfg.controllerOverrideEnabled = true →
        (ControllerPose.construct role cfg).shadowControllerId =
            intToUInt32 cfg.controllerIdOverride ∧
          (ControllerPose.construct role cfg).discoveryActive = false ∧
          ∀ i, ControllerPose.receivePipeData
              (ControllerPose.construct role cfg) i =
            ControllerPose.construct role cfg) ∧
    (∀ (role : ETrackedControllerRole) (cfg : VRPoseConfiguration)
        (poses : List TrackedDevicePose),
      cfg.controllerOverrideEnabled = false →
        (ControllerPose.construct role cfg).shadowControllerId =
            k_unTrackedDeviceIndexInvalid ∧
          (∀ (s : ControllerPoseState) (i : Nat), s.discoveryActive = true →
            (ControllerPose.receivePipeData s i).shadowControllerId = i) ∧
          ControllerPose.GetControllerPose poses
              (ControllerPose.receivePipeData
                (ControllerPose.construct role cfg) 3) =
            poses[3]?) := by
  constructor
  · intro role cfg hov
    refine ⟨?_, ?_, ?_⟩ <;>
      simp [ControllerPose.construct, ControllerPose.receivePipeData, hov]
  · intro role cfg poses hov
    refine ⟨?_, ?_, ?_⟩
    · simp [ControllerPose.construct, hov]
    · intro s i hact
      simp [ControllerPose.receivePipeData, hact]
    · simp [ControllerPose.construct, ControllerPose.receivePipeData,
        ControllerPose.GetControllerPose, hov]

/-- Witness for C3 at a concrete override configuration and a concrete
override-free configuration. -/
theorem C3_identity_resolution_witness :
    ((ControllerPose.construct ETrackedControllerRole.LeftHand
          sampleCfgOverride).shadowControllerId =
        intToUInt32 sampleCfgOverride.controllerIdOverride ∧
      (ControllerPose.construct ETrackedControllerRole.LeftHand
          sampleCfgOverride).discoveryActive = false ∧
      ∀ i, ControllerPose.receivePipeData
          (ControllerPose.construct ETrackedControllerRole.LeftHand
            sampleCfgOverride) i =
        ControllerPose.construct ETrackedControllerRole.LeftHand
          sampleCfgOverride) ∧
    ((ControllerPose.construct ETrackedControllerRole.LeftHand
          sampleCfg).shadowControllerId = k_unTrackedDeviceIndexInvalid ∧
      (∀ (s : ControllerPoseState) (i : Nat), s.discoveryActive = true →
        (ControllerPose.receivePipeData s i).shadowControllerId = i) ∧
      ControllerPose.GetControllerPose [samplePoseValid]
          (ControllerPose.receivePipeData
            (ControllerPose.construct ETrackedControllerRole.LeftHand
              sampleCfg) 3) =
        [samplePoseValid][3]?) :=
  ⟨C3_identity_resolution.1 ETrackedControllerRole.LeftHand
      sampleCfgOverride rfl,
    C3_identity_resolution.2 ETrackedControllerRole.LeftHand sampleCfg
      [samplePoseValid] rfl⟩

/-- C9: the raw-pose snapshot read is in bounds exactly when the resolved
index is below k_unMaxTrackedDeviceCount, and a configured override index
at or beyond that bound (here 100) passes the only guard, the inequality
with the invalid sentinel, and makes the snapshot access out of bounds
(modelled as none, the undefined behaviour of the C++ array read). -/
theorem C9_snapshot_read_bounds :
    (∀ (poses : List TrackedDevicePose) (s : ControllerPoseState),
      poses.length = k_unMaxTrackedDeviceCount →
        ((ControllerPose.GetControllerPose poses s).isSome ↔
          s.shadowControllerId < k_unMaxTrackedDeviceCount)) ∧
    (∀ (role : ETrackedControllerRole) (offv : HmdVector3)
        (offq : HmdQuaternion) (po : Rat) (poses : List TrackedDevicePose)
        (gr : HmdMatrix34 → HmdQuaternion),
      poses.length = k_unMaxTrackedDeviceCount →
        (ControllerPose.construct role
            ⟨offv, offq, po, true, 100⟩).shadowControllerId ≠
            k_unTrackedDeviceIndexInvalid ∧
          ControllerPose.GetControllerPose poses
              (ControllerPose.construct role ⟨offv, offq, po, true, 100⟩) =
            none ∧
          ControllerPose.UpdatePose gr poses
              (ControllerPose.construct role ⟨offv, offq, po, true, 100⟩) =
            none) := by
  constructor
  · intro poses s hlen
    rw [ControllerPose.GetControllerPose, Option.isSome_iff_ne_none, Ne,
      List.getElem?_eq_none_iff, hlen]
    exact Nat.not_le
  · intro role offv offq po poses gr hlen
    have hid : (ControllerPose.construct role
        ⟨offv, offq, po, true, 100⟩).shadowControllerId = 100 := by
      simp [ControllerPose.construct, intToUInt32]
    have hne : (ControllerPose.construct role
        ⟨offv, offq, po, true, 100⟩).shadowControllerId ≠
        k_unTrackedDeviceIndexInvalid := by
      rw [hid]; norm_num [k_unTrackedDeviceIndexInvalid]
    have hcal : (ControllerPose.construct role
        ⟨offv, offq, po, true, 100⟩).calibration.calibrating = false := by
      simp [ControllerPose.construct, Calibration.init]
    have hoob : ControllerPose.GetControllerPose poses
        (ControllerPose.construct role ⟨offv, offq, po, true, 100⟩) = none := by
      rw [ControllerPose.GetControllerPose, hid]
      exact List.getElem?_eq_none
        (by rw [hlen]; norm_num [k_unMaxTrackedDeviceCount])
    exact ⟨hne, hoob, updatePose_oob_eq gr poses _ hcal hne hoob⟩

/-- A host snapshot of the full size k_unMaxTrackedDeviceCount. -/
def sampleSnapshot : List TrackedDevicePose :=
  List.replicate k_unMaxTrackedDeviceCount samplePoseValid

/-- Witness for C9 on a full-size snapshot, with the out-of-bounds override
index 100. -/
theorem C9_snapshot_read_bounds_witness :
    ((ControllerPose.GetControllerPose sampleSnapshot
          sampleStateResolved).isSome ↔
        sampleStateResolved.shadowControllerId < k_unMaxTrackedDeviceCount) ∧
      ((ControllerPose.construct ETrackedControllerRole.RightHand
            ⟨⟨0, 0, 0⟩, ⟨1, 0, 0, 0⟩, 0, true, 100⟩).shadowControllerId ≠
          k_unTrackedDeviceIndexInvalid ∧
        ControllerPose.GetControllerPose sampleSnapshot
            (ControllerPose.construct ETrackedControllerRole.RightHand
              ⟨⟨0, 0, 0⟩, ⟨1, 0, 0, 0⟩, 0, true, 100⟩) = none ∧
        ControllerPose.UpdatePose sampleRotationFn sampleSnapshot
            (ControllerPose.construct ETrackedControllerRole.RightHand
              ⟨⟨0, 0, 0⟩, ⟨1, 0, 0, 0⟩, 0, true, 100⟩) = none) :=
  ⟨C9_snapshot_read_bounds.1 sampleSnapshot sampleStateResolved
      (by simp [sampleSnapshot]),
    C9_snapshot_read_bounds.2 ETrackedControllerRole.RightHand ⟨0, 0, 0⟩
      ⟨1, 0, 0, 0⟩ 0 sampleSnapshot sampleRotationFn
      (by simp [sampleSnapshot])⟩

/-- C10: StartCalibration called outside calibration while the shadow
identity is still unresolved freezes the disconnected pose as the maintain
pose, and every in-session pose request returns that disconnected pose,
whatever happens to the snapshot, the conversion, the configuration or the
resolved index. -/
theorem C10_start_unresolved_freezes_disconnected
    (gr : HmdMatrix34 → HmdQuaternion) (poses : List TrackedDevicePose)
    (s : ControllerPoseState)
    (hcal : s.calibration.calibrating = false)
    (hid : s.shadowControllerId = k_unTrackedDeviceIndexInvalid) :
    ∃ s2, ControllerPose.StartCalibration gr poses s = some s2 ∧
      s2.calibration.calibrating = true ∧
      s2.calibration.maintainPose = uninitializedPose ∧
      ∀ (gr2 : HmdMatrix34 → HmdQuaternion)
        (poses2 : List TrackedDevicePose) (cfg2 : VRPoseConfiguration)
        (id2 : Nat),
        ControllerPose.UpdatePose gr2 poses2
            { s2 with poseConfiguration := cfg2, shadowControllerId := id2 } =
          some (uninitializedPose,
            { s2 with poseConfiguration := cfg2, shadowControllerId := id2 }) := by
  refine ⟨{ s with calibration :=
      Calibration.StartCalibration s.calibration uninitializedPose },
    ?_, rfl, rfl, ?_⟩
  · rw [ControllerPose.StartCalibration,
      updatePose_unresolved_eq gr poses s hcal hid]
    rfl
  · intro gr2 poses2 cfg2 id2
    simp [ControllerPose.UpdatePose, Calibration.StartCalibration,
      Calibration.GetMaintainPose]

/-- Witness for C10 at the concrete unresolved state. -/
theorem C10_start_unresolved_freezes_disconnected_witness :
    ∃ s2, ControllerPose.StartCalibration sampleRotationFn [samplePoseValid]
        sampleStateUnresolved = some s2 ∧
      s2.calibration.calibrating = true ∧
      s2.calibration.maintainPose = uninitializedPose ∧
      ∀ (gr2 : HmdMatrix34 → HmdQuaternion)
        (poses2 : List TrackedDevicePose) (cfg2 : VRPoseConfiguration)
        (id2 : Nat),
        ControllerPose.UpdatePose gr2 poses2
            { s2 with poseConfiguration := cfg2, shadowControllerId := id2 } =
          some (uninitializedPose,
            { s2 with poseConfiguration := cfg2, shadowControllerId := id2 }) :=
  C10_start_unresolved_freezes_disconnected sampleRotationFn
    [samplePoseValid] sampleStateUnresolved rfl rfl
